import Mathlib

/-!
# Formal model of the `atari-breakout-rust` game core

A shallow embedding of `src/breakout.rs` and the model-relevant parts of
`src/main.rs`.  `f32` coordinates are modelled exactly as rationals (all the
arithmetic the game performs on them is addition, subtraction, multiplication,
negation, `min`/`max` and comparison, so `ℚ` is a faithful exact model of the
intended real-number semantics).  The `u16` score and the `u8` lives counter
are modelled as `Nat` with an explicit `% 2 ^ w` at each machine add/sub, which
is the wrapping (release-mode) semantics of the Rust operators.

Host inputs read inside the loop (`mouse_position().0`, `get_frame_time()`,
`screen_height()`, button/key edge events) are passed as explicit parameters.
-/

/-- `macroquad::math::Vec2`, restricted to the exact operations the game uses. -/
structure Vec2 where
  x : ℚ
  y : ℚ
deriving DecidableEq

/-- `struct Rect` from `src/breakout.rs`. -/
structure Rect where
  x : ℚ
  y : ℚ
  width : ℚ
  height : ℚ
deriving DecidableEq

/-- `Rect::from_vec` from `src/breakout.rs`. -/
def Rect.from_vec (pos size : Vec2) : Rect :=
  { x := pos.x, y := pos.y, width := size.x, height := size.y }

/-- `Rect::intersects` from `src/breakout.rs`:
`self.x < other.x + other.width && self.x + self.width > other.x
 && self.y < other.y + other.height && self.y + self.height > other.y`. -/
def Rect.intersects (a other : Rect) : Prop :=
  a.x < other.x + other.width ∧ a.x + a.width > other.x ∧
    a.y < other.y + other.height ∧ a.y + a.height > other.y

instance (a b : Rect) : Decidable (a.intersects b) :=
  inferInstanceAs (Decidable (_ ∧ _ ∧ _ ∧ _))

-- game constants from `src/breakout.rs`
def BRICK_COUNT : Nat := 14
def BRICK_SIZE : Vec2 := ⟨50, 15⟩
def BRICK_GAP : ℚ := 6
def BRICK_ROWS : Nat := 8
def GAME_WIDTH : ℚ := (BRICK_COUNT : ℚ) * (BRICK_SIZE.x + BRICK_GAP) - BRICK_GAP
def PADDING : ℚ := 150
def BASE_SPEED : ℚ := 1/2
def BALL_SIZE : Vec2 := ⟨16, 16⟩

/-- `struct Brick` from `src/breakout.rs`. -/
structure Brick where
  pos : Vec2
  row : Nat
deriving DecidableEq

/-- `Brick::new` from `src/breakout.rs`.  `row` and `col` are `u8`; the
subtraction `BRICK_ROWS - row - 1` is `Nat` (the constructor is only invoked
with `row < BRICK_ROWS`, where `u8` and `Nat` subtraction agree). -/
def Brick.new (row col : Nat) : Brick :=
  { pos := ⟨(col : ℚ) * (BRICK_SIZE.x + BRICK_GAP),
            PADDING + ((BRICK_ROWS - row - 1 : Nat) : ℚ) * (BRICK_SIZE.y + BRICK_GAP)⟩,
    row := row }

/-- `Brick::point_value` from `src/breakout.rs`:
`((self.row / 2) as f64).floor() as u16 * 2 + 1`.  `self.row / 2` is already
`u8` integer division; the round trip through `f64` and `floor` is the
identity on values below `2^8`, so the value is `row / 2 * 2 + 1`. -/
def Brick.point_value (b : Brick) : Nat :=
  b.row / 2 * 2 + 1

/-- `enum GameState` from `src/breakout.rs`. -/
inductive GameState where
  | NewGame
  | Playing
  | Paused
  | GameOver
  | Win
deriving DecidableEq

/-- `struct Breakout` from `src/breakout.rs`.  `score` is a `u16` and
`balls_rem` and `game_count` are `u8`, modelled as `Nat` with wrapping applied
at each machine operation. -/
structure Breakout where
  font_size : Nat
  game_state : GameState
  bricks : List Brick
  ball_pos : Vec2
  ball_vel : Vec2
  paddle_pos : Vec2
  hit_paddle : Bool
  last_mouse_x : ℚ
  score : Nat
  balls_rem : Nat
  game_count : Nat
deriving DecidableEq

/-- The associated function `Breakout::bricks` from `src/breakout.rs`: the
row-major construction loop `for row in 0..BRICK_ROWS { for col in
0..BRICK_COUNT { list.push(Brick::new(row, col)) } }`.  (Named `initBricks`
here because the Lean field projection already takes the name `bricks`.) -/
def Breakout.initBricks : List Brick :=
  (List.range BRICK_ROWS).flatMap fun row =>
    (List.range BRICK_COUNT).map fun col => Brick.new row col

/-- `Breakout::new` from `src/breakout.rs`.  `screenH` is the host's
`screen_height()` at construction time. -/
def Breakout.new (font_size : Nat) (screenH : ℚ) : Breakout :=
  { font_size := font_size
    game_state := GameState.NewGame
    bricks := Breakout.initBricks
    ball_pos := ⟨GAME_WIDTH / 2, screenH / 2⟩
    ball_vel := ⟨BASE_SPEED, BASE_SPEED⟩
    paddle_pos := ⟨(GAME_WIDTH - BRICK_SIZE.x) / 2, screenH - PADDING⟩
    hit_paddle := false
    last_mouse_x := 0
    score := 0
    balls_rem := 3
    game_count := 0 }

/-- `Breakout::handle_mouse_move` from `src/breakout.rs`; `mouseX` is the
host's `mouse_position().0` for this frame. -/
def Breakout.handle_mouse_move (mouseX : ℚ) (g : Breakout) : Breakout :=
  let delta := mouseX - g.last_mouse_x
  { g with
    paddle_pos := ⟨min (max (g.paddle_pos.x + delta) 0) (GAME_WIDTH - BRICK_SIZE.x),
                   g.paddle_pos.y⟩
    last_mouse_x := mouseX }

/-- `Breakout::check_wall_collision` from `src/breakout.rs`. -/
def Breakout.check_wall_collision (g : Breakout) : Breakout :=
  let vx := if g.ball_pos.x ≤ 0 ∨ g.ball_pos.x ≥ GAME_WIDTH - BALL_SIZE.x
    then -g.ball_vel.x else g.ball_vel.x
  let vy := if g.ball_pos.y ≤ 0 then -g.ball_vel.y else g.ball_vel.y
  { g with ball_vel := ⟨vx, vy⟩ }

/-- `Breakout::check_paddle_collision` from `src/breakout.rs`. -/
def Breakout.check_paddle_collision (g : Breakout) : Breakout :=
  let ball_rect := Rect.from_vec g.ball_pos BALL_SIZE
  let paddle_rect := if g.game_state = GameState.Playing
    then Rect.from_vec g.paddle_pos BRICK_SIZE
    else { x := 0, y := g.paddle_pos.y, width := GAME_WIDTH, height := BRICK_SIZE.y }
  if ball_rect.intersects paddle_rect then
    if ¬g.hit_paddle then
      { g with hit_paddle := true, ball_vel := ⟨g.ball_vel.x, -g.ball_vel.y⟩ }
    else g
  else { g with hit_paddle := false }

/-- The scan of `Breakout::check_brick_collision`'s
`for (i, brick) in self.bricks.iter().enumerate()` loop: index and value of
the first brick whose rectangle intersects the ball rectangle, if any. -/
def brickScan (ballRect : Rect) : List Brick → Option (Nat × Brick)
  | [] => none
  | b :: rest =>
    if ballRect.intersects (Rect.from_vec b.pos BRICK_SIZE) then some (0, b)
    else (brickScan ballRect rest).map fun p => (p.1 + 1, p.2)

/-- `Breakout::check_brick_collision` from `src/breakout.rs`: on the first
intersecting brick, reflect the vertical velocity, and — only when the state
is `Playing` — add its point value to the score (`u16` add) and `remove(i)`
it, then `break`. -/
def Breakout.check_brick_collision (g : Breakout) : Breakout :=
  match brickScan (Rect.from_vec g.ball_pos BALL_SIZE) g.bricks with
  | none => g
  | some (i, b) =>
    let g1 := { g with ball_vel := ⟨g.ball_vel.x, -g.ball_vel.y⟩ }
    if g.game_state = GameState.Playing then
      { g1 with
        score := (g1.score + b.point_value) % 2 ^ 16
        bricks := g1.bricks.eraseIdx i }
    else g1

/-- `Breakout::update_ball` from `src/breakout.rs`.  `dt` is the host's
`get_frame_time()` (seconds) and `screenH` its `screen_height()`.  The
`self.balls_rem -= 1` is a `u8` subtraction, modelled with its wrapping
semantics `(n + 255) % 2 ^ 8` (in a debug build it panics when `n = 0`). -/
def Breakout.update_ball (dt screenH : ℚ) (g : Breakout) : Breakout :=
  let pos : Vec2 := ⟨g.ball_pos.x + g.ball_vel.x * dt * 1000,
                     g.ball_pos.y + g.ball_vel.y * dt * 1000⟩
  if pos.y ≥ g.paddle_pos.y then
    let rem := (g.balls_rem + 255) % 2 ^ 8
    { g with
      ball_pos := ⟨GAME_WIDTH / 2, screenH / 2⟩
      balls_rem := rem
      game_state := if rem = 0 then GameState.GameOver else g.game_state }
  else { g with ball_pos := pos }

/-- The first four statements of `Breakout::update`, before `update_ball`. -/
def Breakout.midState (mouseX : ℚ) (g : Breakout) : Breakout :=
  (((g.handle_mouse_move mouseX).check_wall_collision).check_paddle_collision).check_brick_collision

/-- `Breakout::update` from `src/breakout.rs`. -/
def Breakout.update (mouseX dt screenH : ℚ) (g : Breakout) : Breakout :=
  let g5 := (g.midState mouseX).update_ball dt screenH
  if g5.bricks.length = 0 then { g5 with game_state := GameState.Win } else g5

/-- `FONT_SIZE` from `src/main.rs`. -/
def FONT_SIZE : Nat := 56

/-- `handle_mouse_click` from `src/main.rs`; `pressed` is
`is_mouse_button_pressed(MouseButton::Left)` for this frame. -/
def handle_mouse_click (pressed : Bool) (screenH : ℚ) (g : Breakout) : Breakout :=
  if pressed = true ∧ g.game_state ≠ GameState.Playing then
    let g1 := if g.game_state = GameState.GameOver ∨ g.game_state = GameState.Win
      then Breakout.new FONT_SIZE screenH else g
    { g1 with game_state := GameState.Playing }
  else g

/-- `handle_key` from `src/main.rs`; `esc` is `is_key_pressed(KeyCode::Escape)`. -/
def handle_key (esc : Bool) (g : Breakout) : Breakout :=
  if esc = true then
    { g with
      game_state :=
        match g.game_state with
        | GameState.Playing => GameState.Paused
        | GameState.Paused => GameState.Playing
        | other => other }
  else g

/-- One iteration of the `loop` in `main` (`src/main.rs`): `update` unless
`Paused`, then `handle_mouse_click`, then `handle_key`.  (`exit_button`,
`show_mouse` and `draw` do not mutate the model.) -/
def frame (mouseX dt screenH : ℚ) (clicked esc : Bool) (g : Breakout) : Breakout :=
  let g1 := if g.game_state = GameState.Paused then g else g.update mouseX dt screenH
  let g2 := handle_mouse_click clicked screenH g1
  handle_key esc g2

/-- The states the program can reach: `main` constructs
`Breakout::new(FONT_SIZE)` (under whatever `screen_height()` the host
reports) and then iterates `frame` with arbitrary per-frame host inputs. -/
inductive Reachable : Breakout → Prop where
  | init (screenH : ℚ) : Reachable (Breakout.new FONT_SIZE screenH)
  | step (mouseX dt screenH : ℚ) (clicked esc : Bool) {g : Breakout} :
      Reachable g → Reachable (frame mouseX dt screenH clicked esc g)

/-! ## Helper lemmas -/

lemma brickScan_eq_none {r : Rect} {l : List Brick}
    (h : ∀ b ∈ l, ¬ r.intersects (Rect.from_vec b.pos BRICK_SIZE)) :
    brickScan r l = none := by
  induction l with
  | nil => rfl
  | cons b rest ih =>
    simp only [brickScan, if_neg (h b (List.mem_cons_self b rest))]
    rw [ih fun a ha => h a (List.mem_cons_of_mem b ha)]
    rfl

lemma brickScan_first {r : Rect} {pre : List Brick} {b : Brick} {suf : List Brick}
    (hpre : ∀ a ∈ pre, ¬ r.intersects (Rect.from_vec a.pos BRICK_SIZE))
    (hb : r.intersects (Rect.from_vec b.pos BRICK_SIZE)) :
    brickScan r (pre ++ b :: suf) = some (pre.length, b) := by
  induction pre with
  | nil => simp only [List.nil_append, brickScan, if_pos hb, List.length_nil]
  | cons a rest ih =>
    have hna := hpre a (List.mem_cons_self a rest)
    rw [List.cons_append]
    simp only [brickScan, if_neg hna, ih fun x hx => hpre x (List.mem_cons_of_mem a hx)]
    rfl

lemma brickScan_some {r : Rect} {l : List Brick} {i : Nat} {b : Brick}
    (h : brickScan r l = some (i, b)) :
    ∃ pre suf, l = pre ++ b :: suf ∧ pre.length = i := by
  induction l generalizing i with
  | nil => simp [brickScan] at h
  | cons a rest ih =>
    by_cases ha : r.intersects (Rect.from_vec a.pos BRICK_SIZE)
    · simp only [brickScan, if_pos ha, Option.some.injEq, Prod.mk.injEq] at h
      exact ⟨[], rest, by simp [h.2], by simp [h.1]⟩
    · simp only [brickScan, if_neg ha, Option.map_eq_some'] at h
      obtain ⟨⟨j, b0⟩, hscan, hjb⟩ := h
      obtain ⟨hj, hb0⟩ := Prod.mk.injEq .. ▸ hjb
      subst hb0
      obtain ⟨pre, suf, hl, hlen⟩ := ih hscan
      exact ⟨a :: pre, suf, by rw [hl, List.cons_append], by simp [hlen, hj]⟩

lemma eraseIdx_append_length (pre : List Brick) (b : Brick) (suf : List Brick) :
    (pre ++ b :: suf).eraseIdx pre.length = pre ++ suf := by
  induction pre with
  | nil => rfl
  | cons a rest ih => simpa using ih

/-! ## Claim theorems -/

/-- Claim C2: `Rect::intersects` is strict open-interval intersection on both
axes (`a.min < b.max` and `a.max > b.min` per axis), and two rectangles that
share only an edge (`a.x + a.width = b.x`) do not intersect. -/
theorem C2_intersects_strict (a b : Rect) :
    (a.intersects b ↔
      ((a.x < b.x + b.width ∧ a.x + a.width > b.x) ∧
        (a.y < b.y + b.height ∧ a.y + a.height > b.y))) ∧
    (a.x + a.width = b.x → ¬ a.intersects b) := by
  constructor
  · unfold Rect.intersects
    tauto
  · rintro h ⟨-, h2, -, -⟩
    rw [h] at h2
    exact lt_irrefl _ h2

/-- Witness for C2 at a concrete pair of edge-touching rectangles. -/
theorem C2_witness :
    (0 : ℚ) + 10 = 10 ∧ ¬ (Rect.mk 0 0 10 10).intersects (Rect.mk 10 0 10 10) :=
  ⟨by norm_num, (C2_intersects_strict (Rect.mk 0 0 10 10) (Rect.mk 10 0 10 10)).2 (by norm_num)⟩

/-- Claim C7: a brick's point value is `row / 2 * 2 + 1` (integer division),
so rows 0–1 give 1, rows 2–3 give 3, rows 4–5 give 5 and rows 6–7 give 7. -/
theorem C7_point_value (b : Brick) :
    b.point_value = b.row / 2 * 2 + 1 ∧
    ((b.row = 0 ∨ b.row = 1) → b.point_value = 1) ∧
    ((b.row = 2 ∨ b.row = 3) → b.point_value = 3) ∧
    ((b.row = 4 ∨ b.row = 5) → b.point_value = 5) ∧
    ((b.row = 6 ∨ b.row = 7) → b.point_value = 7) := by
  unfold Brick.point_value
  exact ⟨rfl, by rintro (h | h) <;> rw [h], by rintro (h | h) <;> rw [h],
    by rintro (h | h) <;> rw [h], by rintro (h | h) <;> rw [h]⟩

/-- Witness for C7 at the concrete brick of row 5, column 0. -/
theorem C7_witness : (Brick.new 5 0).point_value = 5 :=
  (C7_point_value (Brick.new 5 0)).2.2.2.1 (Or.inr rfl)


/-! ### Field-preservation lemmas for the update phases -/

lemma handle_mouse_move_fields (mouseX : ℚ) (g : Breakout) :
    (g.handle_mouse_move mouseX).bricks = g.bricks ∧
    (g.handle_mouse_move mouseX).score = g.score ∧
    (g.handle_mouse_move mouseX).game_state = g.game_state ∧
    (g.handle_mouse_move mouseX).paddle_pos.y = g.paddle_pos.y ∧
    (g.handle_mouse_move mouseX).balls_rem = g.balls_rem :=
  ⟨rfl, rfl, rfl, rfl, rfl⟩

lemma check_wall_fields (g : Breakout) :
    g.check_wall_collision.bricks = g.bricks ∧
    g.check_wall_collision.score = g.score ∧
    g.check_wall_collision.game_state = g.game_state ∧
    g.check_wall_collision.paddle_pos = g.paddle_pos ∧
    g.check_wall_collision.balls_rem = g.balls_rem :=
  ⟨rfl, rfl, rfl, rfl, rfl⟩

lemma check_paddle_fields (g : Breakout) :
    g.check_paddle_collision.bricks = g.bricks ∧
    g.check_paddle_collision.score = g.score ∧
    g.check_paddle_collision.game_state = g.game_state ∧
    g.check_paddle_collision.paddle_pos = g.paddle_pos ∧
    g.check_paddle_collision.balls_rem = g.balls_rem := by
  simp only [Breakout.check_paddle_collision]
  split
  all_goals split
  all_goals try split
  all_goals exact ⟨rfl, rfl, rfl, rfl, rfl⟩

lemma check_brick_eq_of_scan_none {g : Breakout}
    (h : brickScan (Rect.from_vec g.ball_pos BALL_SIZE) g.bricks = none) :
    g.check_brick_collision = g := by
  unfold Breakout.check_brick_collision
  rw [h]

lemma check_brick_eq_of_scan_some {g : Breakout} {i : Nat} {b : Brick}
    (h : brickScan (Rect.from_vec g.ball_pos BALL_SIZE) g.bricks = some (i, b)) :
    g.check_brick_collision =
      (if g.game_state = GameState.Playing then
        { g with
          ball_vel := ⟨g.ball_vel.x, -g.ball_vel.y⟩
          score := (g.score + b.point_value) % 2 ^ 16
          bricks := g.bricks.eraseIdx i }
      else { g with ball_vel := ⟨g.ball_vel.x, -g.ball_vel.y⟩ }) := by
  unfold Breakout.check_brick_collision
  rw [h]

lemma check_brick_fields (g : Breakout) :
    g.check_brick_collision.game_state = g.game_state ∧
    g.check_brick_collision.paddle_pos = g.paddle_pos ∧
    g.check_brick_collision.balls_rem = g.balls_rem ∧
    g.check_brick_collision.ball_pos = g.ball_pos := by
  cases h : brickScan (Rect.from_vec g.ball_pos BALL_SIZE) g.bricks with
  | none =>
    rw [check_brick_eq_of_scan_none h]
    exact ⟨rfl, rfl, rfl, rfl⟩
  | some p =>
    obtain ⟨i, b⟩ := p
    rw [check_brick_eq_of_scan_some h]
    split
    · exact ⟨rfl, rfl, rfl, rfl⟩
    · exact ⟨rfl, rfl, rfl, rfl⟩

lemma update_ball_fields (dt screenH : ℚ) (g : Breakout) :
    (g.update_ball dt screenH).bricks = g.bricks ∧
    (g.update_ball dt screenH).score = g.score ∧
    (g.update_ball dt screenH).paddle_pos = g.paddle_pos := by
  simp only [Breakout.update_ball]
  split
  · exact ⟨rfl, rfl, rfl⟩
  · exact ⟨rfl, rfl, rfl⟩

lemma update_win_if_fields (mouseX dt screenH : ℚ) (g : Breakout) :
    (g.update mouseX dt screenH).bricks = ((g.midState mouseX).update_ball dt screenH).bricks ∧
    (g.update mouseX dt screenH).score = ((g.midState mouseX).update_ball dt screenH).score ∧
    (g.update mouseX dt screenH).paddle_pos =
      ((g.midState mouseX).update_ball dt screenH).paddle_pos ∧
    (g.update mouseX dt screenH).balls_rem =
      ((g.midState mouseX).update_ball dt screenH).balls_rem := by
  simp only [Breakout.update]
  split
  · exact ⟨rfl, rfl, rfl, rfl⟩
  · exact ⟨rfl, rfl, rfl, rfl⟩

lemma handle_key_fields (esc : Bool) (g : Breakout) :
    (handle_key esc g).bricks = g.bricks ∧
    (handle_key esc g).score = g.score ∧
    (handle_key esc g).balls_rem = g.balls_rem := by
  unfold handle_key
  split
  · exact ⟨rfl, rfl, rfl⟩
  · exact ⟨rfl, rfl, rfl⟩

/-- Claim C8: after every `update` the paddle's x lies in
`[0, GAME_WIDTH - BRICK_SIZE.x]` (the clamped interval), its y is unchanged,
and the paddle position is exactly the one produced by `handle_mouse_move`
(the pointer-delta clamp) — no other phase of `update` moves the paddle. -/
theorem C8_paddle_invariant (mouseX dt screenH : ℚ) (g : Breakout) :
    0 ≤ (g.update mouseX dt screenH).paddle_pos.x ∧
    (g.update mouseX dt screenH).paddle_pos.x ≤ GAME_WIDTH - BRICK_SIZE.x ∧
    (g.update mouseX dt screenH).paddle_pos.y = g.paddle_pos.y ∧
    (g.update mouseX dt screenH).paddle_pos = (g.handle_mouse_move mouseX).paddle_pos := by
  have h1 : (g.update mouseX dt screenH).paddle_pos = (g.handle_mouse_move mouseX).paddle_pos := by
    rw [(update_win_if_fields mouseX dt screenH g).2.2.1,
      (update_ball_fields dt screenH (g.midState mouseX)).2.2]
    unfold Breakout.midState
    rw [(check_brick_fields _).2.1, (check_paddle_fields _).2.2.2.1, (check_wall_fields _).2.2.2.1]
  have hx : (g.handle_mouse_move mouseX).paddle_pos.x =
      min (max (g.paddle_pos.x + (mouseX - g.last_mouse_x)) 0) (GAME_WIDTH - BRICK_SIZE.x) := rfl
  refine ⟨?_, ?_, ?_, h1⟩
  · rw [h1, hx]
    have hub : (0 : ℚ) ≤ GAME_WIDTH - BRICK_SIZE.x := by
      norm_num [GAME_WIDTH, BRICK_SIZE, BRICK_GAP, BRICK_COUNT]
    exact le_min (le_max_right _ _) hub
  · rw [h1, hx]
    exact min_le_right _ _
  · rw [h1]
    exact (handle_mouse_move_fields mouseX g).2.2.2.1

/-- Claim C1: one `check_brick_collision` resolves at most one brick: if no
active brick's rectangle intersects the ball's, the state is unchanged; on
the first intersecting brick in scan order (all earlier bricks missing), the
vertical velocity is reflected in every game state, while adding that brick's
point value to the score (`u16` add) and removing exactly that brick happen
only when the state is `Playing`. -/
theorem C1_single_brick_collision (g : Breakout) :
    ((∀ b ∈ g.bricks,
        ¬ (Rect.from_vec g.ball_pos BALL_SIZE).intersects (Rect.from_vec b.pos BRICK_SIZE)) →
      g.check_brick_collision = g) ∧
    (∀ pre b suf, g.bricks = pre ++ b :: suf →
      (∀ a ∈ pre,
        ¬ (Rect.from_vec g.ball_pos BALL_SIZE).intersects (Rect.from_vec a.pos BRICK_SIZE)) →
      (Rect.from_vec g.ball_pos BALL_SIZE).intersects (Rect.from_vec b.pos BRICK_SIZE) →
      (g.check_brick_collision.ball_vel = ⟨g.ball_vel.x, -g.ball_vel.y⟩ ∧
        (g.game_state = GameState.Playing →
          g.check_brick_collision.bricks = pre ++ suf ∧
          g.check_brick_collision.score = (g.score + b.point_value) % 2 ^ 16) ∧
        (g.game_state ≠ GameState.Playing →
          g.check_brick_collision.bricks = g.bricks ∧
          g.check_brick_collision.score = g.score))) := by
  constructor
  · intro h
    exact check_brick_eq_of_scan_none (brickScan_eq_none h)
  · intro pre b suf hB hpre hb
    have hscan : brickScan (Rect.from_vec g.ball_pos BALL_SIZE) g.bricks
        = some (pre.length, b) := by
      rw [hB]
      exact brickScan_first hpre hb
    rw [check_brick_eq_of_scan_some hscan]
    by_cases hpl : g.game_state = GameState.Playing
    · rw [if_pos hpl]
      exact ⟨rfl, fun _ => ⟨by rw [hB]; exact eraseIdx_append_length pre b suf, rfl⟩,
        fun hn => absurd hpl hn⟩
    · rw [if_neg hpl]
      exact ⟨rfl, fun h => absurd h hpl, fun _ => ⟨rfl, rfl⟩⟩

/-- Witness for C1: a `Playing` state whose ball misses the first brick and
hits the second; exactly the second brick is removed, its value scored, and
the vertical velocity reflected. -/
theorem C1_witness :
    (Breakout.mk 56 GameState.Playing [Brick.new 0 0, Brick.new 0 1] ⟨60, 290⟩ ⟨1/2, 1/2⟩
        ⟨364, 550⟩ false 0 0 3 0).check_brick_collision.ball_vel = ⟨1/2, -(1/2)⟩ ∧
    (Breakout.mk 56 GameState.Playing [Brick.new 0 0, Brick.new 0 1] ⟨60, 290⟩ ⟨1/2, 1/2⟩
        ⟨364, 550⟩ false 0 0 3 0).check_brick_collision.bricks = [Brick.new 0 0] ∧
    (Breakout.mk 56 GameState.Playing [Brick.new 0 0, Brick.new 0 1] ⟨60, 290⟩ ⟨1/2, 1/2⟩
        ⟨364, 550⟩ false 0 0 3 0).check_brick_collision.score = 1 := by
  have h := (C1_single_brick_collision
    (Breakout.mk 56 GameState.Playing [Brick.new 0 0, Brick.new 0 1] ⟨60, 290⟩ ⟨1/2, 1/2⟩
      ⟨364, 550⟩ false 0 0 3 0)).2 [Brick.new 0 0] (Brick.new 0 1) [] rfl
    (by
      intro a ha
      rw [List.mem_singleton] at ha
      subst ha
      norm_num [Rect.intersects, Rect.from_vec, Brick.new, BALL_SIZE, BRICK_SIZE, BRICK_GAP,
        BRICK_ROWS, PADDING])
    (by
      norm_num [Rect.intersects, Rect.from_vec, Brick.new, BALL_SIZE, BRICK_SIZE, BRICK_GAP,
        BRICK_ROWS, PADDING])
  exact ⟨h.1, (h.2.1 rfl).1, (h.2.1 rfl).2⟩

/-- Claim C3: whenever the active brick collection is non-empty before an
`update` and empty after it, the game state is `Win` at the end of that same
`update` call. -/
theorem C3_win_same_update (mouseX dt screenH : ℚ) (g : Breakout)
    (_hne : g.bricks ≠ []) (he : (g.update mouseX dt screenH).bricks = []) :
    (g.update mouseX dt screenH).game_state = GameState.Win := by
  simp only [Breakout.update] at he ⊢
  by_cases h : ((g.midState mouseX).update_ball dt screenH).bricks.length = 0
  · rw [if_pos h]
  · rw [if_neg h] at he
    exact absurd (by rw [he]; rfl) h

set_option maxRecDepth 8000 in
/-- Witness for C3: a `Playing` state with a single brick that the ball
destroys in this `update`; the resulting state is `Win`. -/
theorem C3_witness :
    (Breakout.mk 56 GameState.Playing [Brick.new 0 0] ⟨0, 290⟩ ⟨1/2, 1/2⟩
        ⟨364, 550⟩ false 0 0 3 0).bricks ≠ [] ∧
    ((Breakout.mk 56 GameState.Playing [Brick.new 0 0] ⟨0, 290⟩ ⟨1/2, 1/2⟩
        ⟨364, 550⟩ false 0 0 3 0).update 0 0 700).game_state = GameState.Win := by
  refine ⟨by simp, C3_win_same_update 0 0 700 _ (by simp) ?_⟩
  norm_num [Breakout.update, Breakout.midState, Breakout.update_ball,
    Breakout.check_brick_collision, brickScan, Breakout.check_paddle_collision,
    Breakout.check_wall_collision, Breakout.handle_mouse_move, Rect.intersects, Rect.from_vec,
    Brick.new, BALL_SIZE, BRICK_SIZE, BRICK_GAP, BRICK_ROWS, BRICK_COUNT, PADDING, GAME_WIDTH,
    BASE_SPEED]

/-! ### The session accounting and order invariants -/

/-- Total point value of a list of bricks. -/
def listPoints (l : List Brick) : Nat := (l.map Brick.point_value).sum

lemma listPoints_init : listPoints Breakout.initBricks = 448 := by rfl

lemma initBricks_length : Breakout.initBricks.length = 112 := by rfl

/-- Session accounting: the score plus the value still on the board equals
the total initial value 448. -/
def ScoreInv (g : Breakout) : Prop := g.score + listPoints g.bricks = 448

lemma check_brick_score_bricks (g : Breakout) :
    (g.check_brick_collision.bricks = g.bricks ∧ g.check_brick_collision.score = g.score) ∨
    (∃ pre b suf, g.bricks = pre ++ b :: suf ∧
      g.check_brick_collision.bricks = pre ++ suf ∧
      g.check_brick_collision.score = (g.score + b.point_value) % 2 ^ 16) := by
  cases h : brickScan (Rect.from_vec g.ball_pos BALL_SIZE) g.bricks with
  | none =>
    left
    rw [check_brick_eq_of_scan_none h]
    exact ⟨rfl, rfl⟩
  | some p =>
    obtain ⟨i, b⟩ := p
    rw [check_brick_eq_of_scan_some h]
    by_cases hpl : g.game_state = GameState.Playing
    · right
      obtain ⟨pre, suf, hl, hlen⟩ := brickScan_some h
      refine ⟨pre, b, suf, hl, ?_, ?_⟩
      · rw [if_pos hpl]
        show g.bricks.eraseIdx i = pre ++ suf
        rw [hl, ← hlen]
        exact eraseIdx_append_length pre b suf
      · rw [if_pos hpl]
    · left
      rw [if_neg hpl]
      exact ⟨rfl, rfl⟩

lemma scoreInv_of_eq {g g' : Breakout} (hb : g'.bricks = g.bricks) (hs : g'.score = g.score)
    (h : ScoreInv g) : ScoreInv g' := by
  unfold ScoreInv at *
  rw [hb, hs]
  exact h

lemma scoreInv_check_brick {g : Breakout} (h : ScoreInv g) : ScoreInv g.check_brick_collision := by
  rcases check_brick_score_bricks g with ⟨hb, hs⟩ | ⟨pre, b, suf, hl, hb, hs⟩
  · exact scoreInv_of_eq hb hs h
  · have hd : listPoints (pre ++ b :: suf)
        = listPoints pre + (b.point_value + listPoints suf) := by
      simp [listPoints]
    have hd2 : listPoints (pre ++ suf) = listPoints pre + listPoints suf := by
      simp [listPoints]
    unfold ScoreInv at h ⊢
    rw [hb, hs, hd2]
    rw [hl, hd] at h
    rw [Nat.mod_eq_of_lt (by omega)]
    omega

lemma scoreInv_update {g : Breakout} (mouseX dt screenH : ℚ) (h : ScoreInv g) :
    ScoreInv (g.update mouseX dt screenH) := by
  have h1 := scoreInv_of_eq (handle_mouse_move_fields mouseX g).1
    (handle_mouse_move_fields mouseX g).2.1 h
  have h2 := scoreInv_of_eq (check_wall_fields _).1 (check_wall_fields _).2.1 h1
  have h3 := scoreInv_of_eq (check_paddle_fields _).1 (check_paddle_fields _).2.1 h2
  have h4 : ScoreInv (g.midState mouseX) := scoreInv_check_brick h3
  have h5 := scoreInv_of_eq (update_ball_fields dt screenH _).1
    (update_ball_fields dt screenH _).2.1 h4
  exact scoreInv_of_eq (update_win_if_fields mouseX dt screenH g).1
    (update_win_if_fields mouseX dt screenH g).2.1 h5

lemma scoreInv_new (font_size : Nat) (screenH : ℚ) :
    ScoreInv (Breakout.new font_size screenH) := by
  unfold ScoreInv Breakout.new
  rw [listPoints_init]

lemma scoreInv_click {g : Breakout} (clicked : Bool) (screenH : ℚ) (h : ScoreInv g) :
    ScoreInv (handle_mouse_click clicked screenH g) := by
  simp only [handle_mouse_click]
  split
  · split
    · exact scoreInv_of_eq rfl rfl (scoreInv_new FONT_SIZE screenH)
    · exact scoreInv_of_eq rfl rfl h
  · exact h

lemma scoreInv_frame {g : Breakout} (mouseX dt screenH : ℚ) (clicked esc : Bool)
    (h : ScoreInv g) : ScoreInv (frame mouseX dt screenH clicked esc g) := by
  simp only [frame]
  have h1 : ScoreInv (if g.game_state = GameState.Paused then g
      else g.update mouseX dt screenH) := by
    split
    · exact h
    · exact scoreInv_update mouseX dt screenH h
  have h2 := scoreInv_click clicked screenH h1
  exact scoreInv_of_eq (handle_key_fields esc _).1 (handle_key_fields esc _).2.1 h2

lemma scoreInv_reachable {g : Breakout} (h : Reachable g) : ScoreInv g := by
  induction h with
  | init screenH => exact scoreInv_new FONT_SIZE screenH
  | step mouseX dt screenH clicked esc _ ih =>
    exact scoreInv_frame mouseX dt screenH clicked esc ih

lemma check_brick_bricks_sublist (g : Breakout) :
    List.Sublist g.check_brick_collision.bricks g.bricks := by
  rcases check_brick_score_bricks g with ⟨hb, -⟩ | ⟨pre, b, suf, hl, hb, -⟩
  · rw [hb]
  · rw [hb, hl]
    exact (List.sublist_cons_self b suf).append_left pre

lemma update_bricks_sublist (mouseX dt screenH : ℚ) (g : Breakout) :
    List.Sublist (g.update mouseX dt screenH).bricks g.bricks := by
  rw [(update_win_if_fields mouseX dt screenH g).1, (update_ball_fields dt screenH _).1]
  have h := check_brick_bricks_sublist
    (((g.handle_mouse_move mouseX).check_wall_collision).check_paddle_collision)
  rwa [(check_paddle_fields _).1, (check_wall_fields _).1,
    (handle_mouse_move_fields mouseX g).1] at h

lemma click_bricks_cases (clicked : Bool) (screenH : ℚ) (g : Breakout) :
    (handle_mouse_click clicked screenH g).bricks = g.bricks ∨
    (handle_mouse_click clicked screenH g).bricks = Breakout.initBricks := by
  simp only [handle_mouse_click]
  split
  · split
    · right
      rfl
    · left
      rfl
  · left
    rfl

lemma frame_bricks_sublist (mouseX dt screenH : ℚ) (clicked esc : Bool) (g : Breakout)
    (h : List.Sublist g.bricks Breakout.initBricks) :
    List.Sublist (frame mouseX dt screenH clicked esc g).bricks Breakout.initBricks := by
  simp only [frame]
  rw [(handle_key_fields esc _).1]
  have h1 : List.Sublist (if g.game_state = GameState.Paused then g
      else g.update mouseX dt screenH).bricks Breakout.initBricks := by
    split
    · exact h
    · exact (update_bricks_sublist mouseX dt screenH g).trans h
  rcases click_bricks_cases clicked screenH
    (if g.game_state = GameState.Paused then g else g.update mouseX dt screenH) with hc | hc
  · rw [hc]
    exact h1
  · rw [hc]

/-- Claim C9 (implicit): brick removal preserves the relative order of the
remaining bricks — in every reachable state the active brick collection is a
subsequence of the initial row-major construction order, and every frame
operation keeps this invariant. -/
theorem C9_bricks_subsequence :
    (∀ (g : Breakout) (mouseX dt screenH : ℚ) (clicked esc : Bool),
      List.Sublist g.bricks Breakout.initBricks →
      List.Sublist (frame mouseX dt screenH clicked esc g).bricks Breakout.initBricks) ∧
    (∀ g : Breakout, Reachable g → List.Sublist g.bricks Breakout.initBricks) := by
  refine ⟨fun g mouseX dt screenH clicked esc h =>
    frame_bricks_sublist mouseX dt screenH clicked esc g h, fun g h => ?_⟩
  induction h with
  | init screenH => exact List.Sublist.refl _
  | step mouseX dt screenH clicked esc _ ih =>
    exact frame_bricks_sublist mouseX dt screenH clicked esc _ ih

/-- Witness for C9 at a concrete reachable state (one frame after a fresh
session). -/
theorem C9_witness :
    List.Sublist (frame 0 0 700 false false (Breakout.new FONT_SIZE 700)).bricks
      Breakout.initBricks :=
  C9_bricks_subsequence.1 (Breakout.new FONT_SIZE 700) 0 0 700 false false
    (C9_bricks_subsequence.2 (Breakout.new FONT_SIZE 700) (Reachable.init 700))

/-- Claim C10 (implicit): 448 is the total point value of the 112 initial
bricks, and in every reachable state the score is at most 448 — in
particular the 16-bit score addition in `check_brick_collision` never
wraps. -/
theorem C10_score_bound :
    listPoints Breakout.initBricks = 448 ∧
    ∀ g : Breakout, Reachable g → g.score ≤ 448 ∧ g.score + listPoints g.bricks = 448 := by
  refine ⟨listPoints_init, fun g h => ?_⟩
  have hinv := scoreInv_reachable h
  unfold ScoreInv at hinv
  omega

/-- Witness for C10 at the concrete reachable initial state. -/
theorem C10_witness :
    (Breakout.new FONT_SIZE 700).score ≤ 448 ∧
    (Breakout.new FONT_SIZE 700).score + listPoints (Breakout.new FONT_SIZE 700).bricks = 448 :=
  (C10_score_bound.2 (Breakout.new FONT_SIZE 700) (Reachable.init 700))

/-- Claim C6: a primary click while the state is `GameOver` or `Win` resets
the whole session — the fresh `Breakout::new` state with 112 bricks
(14 columns × 8 rows), initial ball and paddle positions, score 0 and 3
lives — and then sets the state to `Playing`. -/
theorem C6_click_restarts (screenH : ℚ) (g : Breakout)
    (h : g.game_state = GameState.GameOver ∨ g.game_state = GameState.Win) :
    handle_mouse_click true screenH g =
      { Breakout.new FONT_SIZE screenH with game_state := GameState.Playing } ∧
    (handle_mouse_click true screenH g).bricks = Breakout.initBricks ∧
    (handle_mouse_click true screenH g).bricks.length = 112 ∧
    (handle_mouse_click true screenH g).score = 0 ∧
    (handle_mouse_click true screenH g).balls_rem = 3 ∧
    (handle_mouse_click true screenH g).ball_pos = ⟨GAME_WIDTH / 2, screenH / 2⟩ ∧
    (handle_mouse_click true screenH g).paddle_pos
      = ⟨(GAME_WIDTH - BRICK_SIZE.x) / 2, screenH - PADDING⟩ ∧
    (handle_mouse_click true screenH g).game_state = GameState.Playing := by
  have hnp : g.game_state ≠ GameState.Playing := by
    rcases h with h | h <;> rw [h] <;> exact fun hc => GameState.noConfusion hc
  have hmain : handle_mouse_click true screenH g
      = { Breakout.new FONT_SIZE screenH with game_state := GameState.Playing } := by
    unfold handle_mouse_click
    rw [if_pos ⟨rfl, hnp⟩, if_pos h]
  rw [hmain]
  exact ⟨rfl, rfl, initBricks_length, rfl, rfl, rfl, rfl, rfl⟩

/-- Witness for C6 at a concrete `GameOver` state. -/
theorem C6_witness :
    (handle_mouse_click true 700 (Breakout.mk 56 GameState.GameOver [] ⟨389, 350⟩ ⟨1/2, 1/2⟩
        ⟨364, 550⟩ false 0 17 0 0)).bricks.length = 112 ∧
    (handle_mouse_click true 700 (Breakout.mk 56 GameState.GameOver [] ⟨389, 350⟩ ⟨1/2, 1/2⟩
        ⟨364, 550⟩ false 0 17 0 0)).score = 0 ∧
    (handle_mouse_click true 700 (Breakout.mk 56 GameState.GameOver [] ⟨389, 350⟩ ⟨1/2, 1/2⟩
        ⟨364, 550⟩ false 0 17 0 0)).balls_rem = 3 ∧
    (handle_mouse_click true 700 (Breakout.mk 56 GameState.GameOver [] ⟨389, 350⟩ ⟨1/2, 1/2⟩
        ⟨364, 550⟩ false 0 17 0 0)).game_state = GameState.Playing := by
  have h := C6_click_restarts 700 (Breakout.mk 56 GameState.GameOver [] ⟨389, 350⟩ ⟨1/2, 1/2⟩
    ⟨364, 550⟩ false 0 17 0 0) (Or.inl rfl)
  exact ⟨h.2.2.1, h.2.2.2.1, h.2.2.2.2.1, h.2.2.2.2.2.2.2⟩

lemma midState_balls_rem (mouseX : ℚ) (g : Breakout) :
    (g.midState mouseX).balls_rem = g.balls_rem := by
  unfold Breakout.midState
  rw [(check_brick_fields _).2.2.1, (check_paddle_fields _).2.2.2.2,
    (check_wall_fields _).2.2.2.2, (handle_mouse_move_fields mouseX g).2.2.2.2]

/-- Claim C4 as amended: if an `update`'s ball-drop (post-integration ball y
at or past the paddle's y line) brings the lives counter from 1 to 0, the
state is `GameOver` at the end of that same `update` — unless the brick
collection is empty at the end of that update, in which case the final,
unconditional win check (which runs last) sets `Win` instead. -/
theorem C4_lives_gameover (mouseX dt screenH : ℚ) (g : Breakout)
    (h1 : g.balls_rem = 1)
    (h2 : (g.midState mouseX).ball_pos.y + (g.midState mouseX).ball_vel.y * dt * 1000
      ≥ (g.midState mouseX).paddle_pos.y)
    (h3 : (g.update mouseX dt screenH).bricks ≠ []) :
    (g.update mouseX dt screenH).game_state = GameState.GameOver := by
  have hmid : (g.midState mouseX).balls_rem = 1 := by
    rw [midState_balls_rem]
    exact h1
  have hg5 : ((g.midState mouseX).update_ball dt screenH).game_state = GameState.GameOver := by
    simp only [Breakout.update_ball]
    split
    · show (if ((g.midState mouseX).balls_rem + 255) % 2 ^ 8 = 0 then GameState.GameOver
        else (g.midState mouseX).game_state) = GameState.GameOver
      rw [hmid]
      norm_num
    · next h => exact absurd h2 h
  simp only [Breakout.update] at h3 ⊢
  by_cases hlen : ((g.midState mouseX).update_ball dt screenH).bricks.length = 0
  · rw [if_pos hlen] at h3
    exact absurd (List.length_eq_zero.mp hlen) h3
  · rw [if_neg hlen]
    exact hg5

set_option maxRecDepth 8000 in
/-- Counterexample to C4 as stated: a `Playing` state with one brick left and
one life left, where the same `update` destroys the last brick and drops the
ball.  The lives counter reaches 0 by the ball-drop during this update, yet
the state at the end of the update is `Win`, not `GameOver`: the
unconditional empty-board check at the end of `update` overrides the
`GameOver` set inside `update_ball`. -/
theorem C4_counterexample :
    (Breakout.mk 56 GameState.Playing [Brick.new 0 0] ⟨0, 290⟩ ⟨1/2, -(1/2)⟩
        ⟨364, 550⟩ false 0 0 1 0).balls_rem = 1 ∧
    ((Breakout.mk 56 GameState.Playing [Brick.new 0 0] ⟨0, 290⟩ ⟨1/2, -(1/2)⟩
        ⟨364, 550⟩ false 0 0 1 0).update 0 1 700).balls_rem = 0 ∧
    ((Breakout.mk 56 GameState.Playing [Brick.new 0 0] ⟨0, 290⟩ ⟨1/2, -(1/2)⟩
        ⟨364, 550⟩ false 0 0 1 0).update 0 1 700).game_state = GameState.Win ∧
    GameState.Win ≠ GameState.GameOver := by
  refine ⟨rfl, ?_, ?_, fun h => GameState.noConfusion h⟩ <;>
    norm_num [Breakout.update, Breakout.midState, Breakout.update_ball,
      Breakout.check_brick_collision, brickScan, Breakout.check_paddle_collision,
      Breakout.check_wall_collision, Breakout.handle_mouse_move, Rect.intersects, Rect.from_vec,
      Brick.new, BALL_SIZE, BRICK_SIZE, BRICK_GAP, BRICK_ROWS, BRICK_COUNT, PADDING, GAME_WIDTH,
      BASE_SPEED]

set_option maxRecDepth 8000 in
/-- Witness for the amended C4: same scenario but with a second brick
remaining, so the final state of the update is `GameOver`. -/
theorem C4_witness :
    (Breakout.mk 56 GameState.Playing [Brick.new 0 0, Brick.new 7 13] ⟨0, 290⟩ ⟨1/2, -(1/2)⟩
        ⟨364, 550⟩ false 0 0 1 0).balls_rem = 1 ∧
    ((Breakout.mk 56 GameState.Playing [Brick.new 0 0, Brick.new 7 13] ⟨0, 290⟩ ⟨1/2, -(1/2)⟩
        ⟨364, 550⟩ false 0 0 1 0).update 0 1 700).game_state = GameState.GameOver := by
  have h2 : ((Breakout.mk 56 GameState.Playing [Brick.new 0 0, Brick.new 7 13] ⟨0, 290⟩
      ⟨1/2, -(1/2)⟩ ⟨364, 550⟩ false 0 0 1 0).midState 0).ball_pos.y +
      ((Breakout.mk 56 GameState.Playing [Brick.new 0 0, Brick.new 7 13] ⟨0, 290⟩
      ⟨1/2, -(1/2)⟩ ⟨364, 550⟩ false 0 0 1 0).midState 0).ball_vel.y * 1 * 1000 ≥
      ((Breakout.mk 56 GameState.Playing [Brick.new 0 0, Brick.new 7 13] ⟨0, 290⟩
      ⟨1/2, -(1/2)⟩ ⟨364, 550⟩ false 0 0 1 0).midState 0).paddle_pos.y := by
    norm_num [Breakout.midState, Breakout.check_brick_collision, brickScan,
      Breakout.check_paddle_collision, Breakout.check_wall_collision, Breakout.handle_mouse_move,
      Rect.intersects, Rect.from_vec, Brick.new, BALL_SIZE, BRICK_SIZE, BRICK_GAP, BRICK_ROWS,
      BRICK_COUNT, PADDING, GAME_WIDTH, BASE_SPEED]
  have h3 : ((Breakout.mk 56 GameState.Playing [Brick.new 0 0, Brick.new 7 13] ⟨0, 290⟩
      ⟨1/2, -(1/2)⟩ ⟨364, 550⟩ false 0 0 1 0).update 0 1 700).bricks ≠ [] := by
    norm_num [Breakout.update, Breakout.midState, Breakout.update_ball,
      Breakout.check_brick_collision, brickScan, Breakout.check_paddle_collision,
      Breakout.check_wall_collision, Breakout.handle_mouse_move, Rect.intersects, Rect.from_vec,
      Brick.new, BALL_SIZE, BRICK_SIZE, BRICK_GAP, BRICK_ROWS, BRICK_COUNT, PADDING, GAME_WIDTH,
      BASE_SPEED]
  exact ⟨rfl, C4_lives_gameover 0 1 700 _ rfl h2 h3⟩

/-! ### A concrete reachable trace driving the lives counter through zero -/

lemma initBricks_y_bound : ∀ b ∈ Breakout.initBricks, b.pos.y + BRICK_SIZE.y ≤ 312 := by
  intro b hb
  simp only [Breakout.initBricks, List.mem_flatMap, List.mem_map, List.mem_range] at hb
  obtain ⟨row, hrow, col, -, rfl⟩ := hb
  simp only [Brick.new, BRICK_SIZE, PADDING, BRICK_GAP, BRICK_ROWS]
  have h7 : ((8 - row - 1 : Nat) : ℚ) ≤ 7 := by
    exact_mod_cast (by omega : 8 - row - 1 ≤ 7)
  have hnn : (0 : ℚ) ≤ ((8 - row - 1 : Nat) : ℚ) := by positivity
  nlinarith

lemma scanInit_none {r : Rect} (hy : (312 : ℚ) ≤ r.y) :
    brickScan r Breakout.initBricks = none := by
  apply brickScan_eq_none
  intro b hb hint
  obtain ⟨-, -, h3, -⟩ := hint
  have hbd := initBricks_y_bound b hb
  simp only [Rect.from_vec] at h3
  simp only [BRICK_SIZE] at h3 hbd
  linarith

/-- The recurring state of the underflow trace: ball recentred at
`(389, 350)` (screen height 700), paddle at its initial spot, full board,
score 0, `n` lives, game state `st`. -/
def traceState (st : GameState) (n : Nat) : Breakout :=
  Breakout.mk 56 st Breakout.initBricks ⟨389, 350⟩ ⟨1/2, 1/2⟩ ⟨364, 550⟩ false 0 0 n 0

lemma trace_mouse (st : GameState) (n : Nat) :
    (traceState st n).handle_mouse_move 0 = traceState st n := by
  norm_num [traceState, Breakout.handle_mouse_move, Breakout.mk.injEq, Vec2.mk.injEq,
    GAME_WIDTH, BRICK_SIZE, BRICK_GAP, BRICK_COUNT, min_def, max_def]

lemma trace_wall (st : GameState) (n : Nat) :
    (traceState st n).check_wall_collision = traceState st n := by
  norm_num [traceState, Breakout.check_wall_collision, Breakout.mk.injEq, Vec2.mk.injEq,
    GAME_WIDTH, BALL_SIZE, BRICK_SIZE, BRICK_GAP, BRICK_COUNT]

lemma trace_paddle (st : GameState) (n : Nat) :
    (traceState st n).check_paddle_collision = traceState st n := by
  by_cases h : st = GameState.Playing
  · subst h
    norm_num [traceState, Breakout.check_paddle_collision, Rect.intersects, Rect.from_vec,
      Breakout.mk.injEq, Vec2.mk.injEq, GAME_WIDTH, BALL_SIZE, BRICK_SIZE, BRICK_GAP, BRICK_COUNT]
  · norm_num [traceState, Breakout.check_paddle_collision, h, Rect.intersects, Rect.from_vec,
      Breakout.mk.injEq, Vec2.mk.injEq, GAME_WIDTH, BALL_SIZE, BRICK_SIZE, BRICK_GAP, BRICK_COUNT]

lemma trace_brick (st : GameState) (n : Nat) :
    (traceState st n).check_brick_collision = traceState st n :=
  check_brick_eq_of_scan_none (scanInit_none (by norm_num [Rect.from_vec, traceState]))

lemma trace_ball_nodrop (st : GameState) (n : Nat) :
    (traceState st n).update_ball 0 700 = traceState st n := by
  simp only [traceState, Breakout.update_ball]
  split
  · next h =>
    exact absurd h (by norm_num)
  · norm_num [Breakout.mk.injEq, Vec2.mk.injEq, GAME_WIDTH, BRICK_SIZE, BRICK_GAP, BRICK_COUNT]

lemma trace_ball_drop (st : GameState) (n : Nat) :
    (traceState st n).update_ball 1 700 =
      Breakout.mk 56 (if (n + 255) % 2 ^ 8 = 0 then GameState.GameOver else st)
        Breakout.initBricks ⟨389, 350⟩ ⟨1/2, 1/2⟩ ⟨364, 550⟩ false 0 0 ((n + 255) % 2 ^ 8) 0 := by
  simp only [traceState, Breakout.update_ball]
  split
  · norm_num [Breakout.mk.injEq, Vec2.mk.injEq, GAME_WIDTH, BRICK_SIZE, BRICK_GAP, BRICK_COUNT]
  · next h =>
    exact absurd (by norm_num : ((350 : ℚ) + 1/2 * 1 * 1000 ≥ 550)) h

lemma traceState_len (st : GameState) (n : Nat) :
    ¬((traceState st n).bricks.length = 0) := by
  show ¬(Breakout.initBricks.length = 0)
  rw [initBricks_length]
  norm_num

lemma trace_update_nodrop (st : GameState) (n : Nat) :
    (traceState st n).update 0 0 700 = traceState st n := by
  simp only [Breakout.update, Breakout.midState]
  rw [trace_mouse, trace_wall, trace_paddle, trace_brick, trace_ball_nodrop,
    if_neg (traceState_len st n)]

lemma trace_update_drop (st : GameState) (n : Nat) :
    (traceState st n).update 0 1 700 =
      Breakout.mk 56 (if (n + 255) % 2 ^ 8 = 0 then GameState.GameOver else st)
        Breakout.initBricks ⟨389, 350⟩ ⟨1/2, 1/2⟩ ⟨364, 550⟩ false 0 0 ((n + 255) % 2 ^ 8) 0 := by
  simp only [Breakout.update, Breakout.midState]
  rw [trace_mouse, trace_wall, trace_paddle, trace_brick, trace_ball_drop]
  rw [if_neg (show ¬((Breakout.mk 56 (if (n + 255) % 2 ^ 8 = 0 then GameState.GameOver else st)
    Breakout.initBricks ⟨389, 350⟩ ⟨1/2, 1/2⟩ ⟨364, 550⟩ false 0 0
    ((n + 255) % 2 ^ 8) 0).bricks.length = 0) by
      show ¬(Breakout.initBricks.length = 0)
      rw [initBricks_length]
      norm_num)]

lemma click_false (screenH : ℚ) (g : Breakout) : handle_mouse_click false screenH g = g := by
  unfold handle_mouse_click
  rw [if_neg]
  rintro ⟨h, -⟩
  exact Bool.noConfusion h

lemma key_false (g : Breakout) : handle_key false g = g := by
  unfold handle_key
  rw [if_neg]
  exact fun h => Bool.noConfusion h

lemma trace_frame_drop (st : GameState) (hst : st ≠ GameState.Paused) (n : Nat) :
    frame 0 1 700 false false (traceState st n) =
      Breakout.mk 56 (if (n + 255) % 2 ^ 8 = 0 then GameState.GameOver else st)
        Breakout.initBricks ⟨389, 350⟩ ⟨1/2, 1/2⟩ ⟨364, 550⟩ false 0 0 ((n + 255) % 2 ^ 8) 0 := by
  simp only [frame]
  rw [if_neg (show ¬((traceState st n).game_state = GameState.Paused) from hst),
    trace_update_drop, click_false, key_false]

lemma trace_frame_first :
    frame 0 0 700 true false (Breakout.new FONT_SIZE 700) = traceState GameState.Playing 3 := by
  have hnew : Breakout.new FONT_SIZE 700 = traceState GameState.NewGame 3 := by
    norm_num [Breakout.new, traceState, FONT_SIZE, Breakout.mk.injEq, Vec2.mk.injEq,
      GAME_WIDTH, BRICK_SIZE, BRICK_GAP, BRICK_COUNT, PADDING, BASE_SPEED]
  rw [hnew]
  simp only [frame]
  rw [if_neg (show ¬((traceState GameState.NewGame 3).game_state = GameState.Paused)
    from fun h => GameState.noConfusion h)]
  rw [trace_update_nodrop]
  simp only [handle_mouse_click]
  rw [if_pos ⟨by trivial, show ¬((traceState GameState.NewGame 3).game_state = GameState.Playing)
    from fun h => GameState.noConfusion h⟩]
  rw [if_neg (show ¬((traceState GameState.NewGame 3).game_state = GameState.GameOver ∨
    (traceState GameState.NewGame 3).game_state = GameState.Win) by
      rintro (h | h) <;> exact GameState.noConfusion h)]
  rw [key_false]
  rfl

/-- Claim C5 fails on the code: the lives decrement is not guarded at zero.
Along a concrete reachable trace (screen height 700, mouse at x 0: one
NewGame frame with a click, then three 1-second frames each dropping the
ball) the game reaches `GameOver` with `balls_rem = 0`; `update` still runs
in `GameOver`, and the next ball-drop executes `balls_rem -= 1` at 0, which
wraps the `u8` counter to 255 (and panics in a debug build) instead of being
skipped. -/
theorem C5_lives_underflow :
    (frame 0 1 700 false false (frame 0 1 700 false false (frame 0 1 700 false false
        (frame 0 0 700 true false (Breakout.new FONT_SIZE 700))))).balls_rem = 0 ∧
    (frame 0 1 700 false false (frame 0 1 700 false false (frame 0 1 700 false false
        (frame 0 0 700 true false (Breakout.new FONT_SIZE 700))))).game_state
      = GameState.GameOver ∧
    Reachable (frame 0 1 700 false false (frame 0 1 700 false false (frame 0 1 700 false false
        (frame 0 0 700 true false (Breakout.new FONT_SIZE 700))))) ∧
    Reachable (frame 0 1 700 false false (frame 0 1 700 false false (frame 0 1 700 false false
        (frame 0 1 700 false false (frame 0 0 700 true false (Breakout.new FONT_SIZE 700)))))) ∧
    (frame 0 1 700 false false (frame 0 1 700 false false (frame 0 1 700 false false
        (frame 0 1 700 false false (frame 0 0 700 true false
          (Breakout.new FONT_SIZE 700)))))).balls_rem = 255 := by
  have e1 := trace_frame_first
  have e2 : frame 0 1 700 false false (traceState GameState.Playing 3)
      = traceState GameState.Playing 2 := by
    rw [trace_frame_drop GameState.Playing (fun h => GameState.noConfusion h) 3]
    norm_num [traceState, Breakout.mk.injEq]
  have e3 : frame 0 1 700 false false (traceState GameState.Playing 2)
      = traceState GameState.Playing 1 := by
    rw [trace_frame_drop GameState.Playing (fun h => GameState.noConfusion h) 2]
    norm_num [traceState, Breakout.mk.injEq]
  have e4 : frame 0 1 700 false false (traceState GameState.Playing 1)
      = traceState GameState.GameOver 0 := by
    rw [trace_frame_drop GameState.Playing (fun h => GameState.noConfusion h) 1]
    norm_num [traceState, Breakout.mk.injEq]
  have e5 : frame 0 1 700 false false (traceState GameState.GameOver 0)
      = traceState GameState.GameOver 255 := by
    rw [trace_frame_drop GameState.GameOver (fun h => GameState.noConfusion h) 0]
    norm_num [traceState, Breakout.mk.injEq]
  have hr4 : Reachable (frame 0 1 700 false false (frame 0 1 700 false false
      (frame 0 1 700 false false (frame 0 0 700 true false (Breakout.new FONT_SIZE 700))))) :=
    Reachable.step 0 1 700 false false (Reachable.step 0 1 700 false false
      (Reachable.step 0 1 700 false false (Reachable.step 0 0 700 true false
        (Reachable.init 700))))
  refine ⟨?_, ?_, hr4, Reachable.step 0 1 700 false false hr4, ?_⟩ <;>
    rw [e1, e2, e3, e4] <;> try rw [e5]
  · rfl
  · rfl
  · rfl
